import Mathlib

/-!
Verification development for the Consilium deliberation system.

The repository ships the Next.js frontend (question form, deliberation
stream hook `useDeliberation`, API client) under `src/`; the backend
Deliberation Orchestrator (ScenarioDocument, DeltaEngine,
CertificationPolicy, RoundScheduler, EventBus, SessionStateMachine) is
described by the specification but its code is not part of the checked-in
sources.  Backend components are therefore modelled from the spec, while
the frontend hook and the core-question data are embedded directly from
the TypeScript sources.

Layout: all definitions first, then the theorems.
-/

namespace Consilium

/-! ## JSON-like values

Document field values, delta payloads and question conditional values are
loosely typed JSON in the implementation; we model them with a small
value tree. -/

/-- A JSON-like value: string, integer, boolean, array or object. -/
inductive JValue where
  | s : String → JValue
  | n : Int → JValue
  | b : Bool → JValue
  | arr : List JValue → JValue
  | obj : List (String × JValue) → JValue
deriving Inhabited

/-- A path addressing a field inside the scenario document,
e.g. `["forces", "side_a", "total_strength"]`. -/
abbrev DocPath := List String

/-! ## ScenarioDocument and DeltaEngine

Modelled from the spec: the backend's versioned shared document and the
single-writer mutation engine are not among the checked-in sources.
Spec §3: "ScenarioDocument: a versioned aggregate with fields ...
Invariant: `version` is monotonically non-decreasing and increments
exactly once per successfully applied delta; the document is never
partially updated — an applied delta is all-or-nothing."  The aggregate
fields (era, theater, forces, timeline, ...) are represented uniformly
as a finite map from paths to values. -/

/-- Modelled from the spec: the versioned shared scenario document
(spec §3).  `data` holds the document fields as a path-keyed map. -/
structure ScenarioDocument where
  version : Nat
  data : List (DocPath × JValue)
deriving Inhabited

/-- Look up the value stored at a path. -/
def docGet (doc : ScenarioDocument) (p : DocPath) : Option JValue :=
  (doc.data.find? (fun kv => kv.fst = p)).map Prod.snd

/-- Replace the value stored at an existing path. -/
def docSet (data : List (DocPath × JValue)) (p : DocPath) (v : JValue) :
    List (DocPath × JValue) :=
  data.map (fun kv => if kv.fst = p then (p, v) else kv)

/-- Delta operations (spec §3): set a field, append to a collection, or
merge into an object. -/
inductive DeltaOp where
  | set
  | appendTo
  | mergeObj
deriving DecidableEq, Inhabited

/-- Modelled from the spec: a proposed mutation (spec §3) — target path,
operation, value, proposing contributor, round number. -/
structure Delta where
  path : DocPath
  op : DeltaOp
  value : JValue
  contributor : String
  round : Nat
deriving Inhabited

/-- Error taxonomy entry for a malformed or unresolvable delta
(spec §7, `InvalidDeltaError`). -/
inductive DeltaError where
  | invalidDelta
deriving DecidableEq, Inhabited

/-- Merge the entries of the second association list into the first,
overwriting keys that are present and appending fresh ones. -/
def mergeAssoc (base : List (String × JValue)) :
    List (String × JValue) → List (String × JValue)
  | [] => base
  | (k, v) :: rest =>
      if base.any (fun kv => kv.fst = k) then
        mergeAssoc (base.map (fun kv => if kv.fst = k then (k, v) else kv)) rest
      else
        mergeAssoc (base ++ [(k, v)]) rest

/-- Modelled from the spec: one DeltaEngine application step (spec §4.3).
Validates that the target path exists (for `appendTo`/`mergeObj`, with a
value of the right shape) or — for `set` — is a legal creation point (a
fresh non-empty path); rejects with `InvalidDeltaError` otherwise.  On
success every affected field is updated and `version` is incremented by
exactly one; the document is returned whole (all-or-nothing). -/
def applyDelta (doc : ScenarioDocument) (d : Delta) :
    Except DeltaError ScenarioDocument :=
  match d.op with
  | DeltaOp.set =>
      match docGet doc d.path with
      | some _ =>
          Except.ok { version := doc.version + 1,
                      data := docSet doc.data d.path d.value }
      | none =>
          if d.path = [] then Except.error DeltaError.invalidDelta
          else
            Except.ok { version := doc.version + 1,
                        data := doc.data ++ [(d.path, d.value)] }
  | DeltaOp.appendTo =>
      match docGet doc d.path with
      | some (JValue.arr xs) =>
          Except.ok { version := doc.version + 1,
                      data := docSet doc.data d.path (JValue.arr (xs ++ [d.value])) }
      | _ => Except.error DeltaError.invalidDelta
  | DeltaOp.mergeObj =>
      match docGet doc d.path, d.value with
      | some (JValue.obj base), JValue.obj extra =>
          Except.ok { version := doc.version + 1,
                      data := docSet doc.data d.path (JValue.obj (mergeAssoc base extra)) }
      | _, _ => Except.error DeltaError.invalidDelta

/-- Modelled from the spec: the DeltaEngine run over a round's deltas in
the deterministic order fixed by the scheduler (spec §4.2 step 3,
§4.3).  A rejected delta is logged and skipped — it leaves the document
untouched and the round continues. -/
def applyDeltas (doc : ScenarioDocument) : List Delta → ScenarioDocument
  | [] => doc
  | d :: ds =>
      match applyDelta doc d with
      | Except.ok doc2 => applyDeltas doc2 ds
      | Except.error _ => applyDeltas doc ds

/-- Number of deltas of the sequence the engine accepts, counted along
the same run as `applyDeltas`. -/
def acceptedCount (doc : ScenarioDocument) : List Delta → Nat
  | [] => 0
  | d :: ds =>
      match applyDelta doc d with
      | Except.ok doc2 => acceptedCount doc2 ds + 1
      | Except.error _ => acceptedCount doc ds

/-- A concrete initial document used to exercise the delta engine. -/
def doc0 : ScenarioDocument :=
  { version := 0,
    data := [(["era"], JValue.s "ancient"),
             (["timeline"], JValue.arr [])] }

/-- A well-formed `set` delta targeting an existing field. -/
def dSet : Delta :=
  { path := ["era"], op := DeltaOp.set, value := JValue.s "high_medieval",
    contributor := "military_historian", round := 1 }

/-- A malformed delta: `set` on the empty path is not a legal target. -/
def dBad : Delta :=
  { path := [], op := DeltaOp.set, value := JValue.b true,
    contributor := "logistics", round := 1 }

/-! ## CertificationPolicy

Modelled from the spec (§3, §4.5): objections carry an ordered severity
scale and an addressed flag; the policy is a pure function of the
round's objections and the blocking threshold. -/

/-- Ordered severity scale of an objection (spec §3):
low / medium / high / critical. -/
inductive Severity where
  | low
  | medium
  | high
  | critical
deriving DecidableEq, Inhabited

/-- Numeric rank giving the severity order. -/
def sevRank : Severity → Nat
  | Severity.low => 0
  | Severity.medium => 1
  | Severity.high => 2
  | Severity.critical => 3

/-- Modelled from the spec: one red-team objection (spec §3) —
challenger identity, round, target field, text, severity, optional
suggested fix, and the addressed flag (the only mutable part). -/
structure Objection where
  challenger : String
  round : Nat
  field : DocPath
  text : String
  severity : Severity
  suggestion : Option String
  addressed : Bool
deriving Inhabited

/-- Whether some delta of `ds` — the deltas applied later in the same
round than the objection — targets the objection's field (spec §4.5). -/
def addressedBy (o : Objection) (ds : List Delta) : Bool :=
  ds.any (fun d => d.round = o.round && d.path = o.field)

/-- Set the addressed flags at round end: an objection becomes addressed
when a delta applied later in the same round targets the same field
(spec §3, §4.5). -/
def markAddressed (objs : List Objection) (ds : List Delta) : List Objection :=
  objs.map (fun o => { o with addressed := o.addressed || addressedBy o ds })

/-- Default blocking threshold (spec §4.5): "high". -/
def defaultThreshold : Severity := Severity.high

/-- Modelled from the spec: the certification decision (spec §4.5) —
certified iff no objection of the round has severity at or above the
blocking threshold and remains unaddressed.  A pure function of the
objections and the threshold. -/
def certify (threshold : Severity) (objs : List Objection) : Bool :=
  objs.all (fun o => decide (sevRank o.severity < sevRank threshold) || o.addressed)

/-! ## RoundScheduler, EventBus and session trace

Modelled from the spec (§4.2, §4.6, §7): the round loop, the per-session
event log with strictly increasing sequence numbers, and the terminal
event discipline. -/

/-- Session lifecycle states (spec §4.1). -/
inductive SessionStatus where
  | intake
  | deliberating
  | certified
  | failed
  | error
deriving DecidableEq, Inhabited

/-- Event kinds of the deliberation stream (spec §4.6). -/
inductive EventKind where
  | session_start
  | round_start
  | expert_contribution
  | redteam_objection
  | round_end
  | certified
  | certification_failed
  | session_error
  | session_end
deriving DecidableEq, Inhabited

/-- An entry of the session trace before sequence numbers are assigned:
event kind, the round it belongs to (0 for session-level events) and the
`certified` flag carried by `round_end`. -/
structure TraceEvent where
  kind : EventKind
  round : Nat
  flag : Bool
deriving DecidableEq, Inhabited

/-- Outcome of one deliberation round as seen by the scheduler: whether
CertificationPolicy certified the round, and the objections still
unaddressed at round end (carried into the next round, spec §4.2
step 7). -/
structure RoundOutcome where
  certified : Bool
  unaddressed : List Objection

/-- Modelled from the spec: the RoundScheduler loop (spec §4.2).  For
round `r`, run the round (expert phase, delta application, red-team
phase, certification — abstracted into `runRound`, which receives the
round number and the objections carried forward), emit `round_start(r)`
and `round_end(r, certified)`; stop with `certified` when the round
certifies, stop with `failed` at the final round, and otherwise continue
to round `r+1` carrying the unaddressed objections.  The loop is entered
at `r = 1`, so the spec's `r == maxRounds` exit test is expressed as
`maxRounds ≤ r`. -/
def roundLoop (runRound : Nat → List Objection → RoundOutcome)
    (maxRounds : Nat) (r : Nat) (carried : List Objection) :
    SessionStatus × List TraceEvent :=
  let out := runRound r carried
  let evs := [TraceEvent.mk EventKind.round_start r false,
              TraceEvent.mk EventKind.round_end r out.certified]
  if out.certified then (SessionStatus.certified, evs)
  else if maxRounds ≤ r then (SessionStatus.failed, evs)
  else
    let rest := roundLoop runRound maxRounds (r + 1) out.unaddressed
    (rest.fst, evs ++ rest.snd)
termination_by maxRounds - r
decreasing_by simp_wf; omega

/-- Modelled from the spec: run a whole deliberation, rounds 1 to
`maxRounds`, starting with no carried objections. -/
def runSession (runRound : Nat → List Objection → RoundOutcome)
    (maxRounds : Nat) : SessionStatus × List TraceEvent :=
  roundLoop runRound maxRounds 1 []

/-- Number of `round_end` events of a trace. -/
def countRoundEnd (evs : List TraceEvent) : Nat :=
  (evs.filter (fun e => e.kind = EventKind.round_end)).length

/-- The terminal event kind announcing a session outcome (spec §7):
`certified`, `certification_failed` or `session_error`. -/
def terminalKind : SessionStatus → EventKind
  | SessionStatus.certified => EventKind.certified
  | SessionStatus.failed => EventKind.certification_failed
  | _ => EventKind.session_error

/-- Whether an event kind is terminal-status (spec §7): `certified`,
`certification_failed` or `session_error`. -/
def isTerminal (k : EventKind) : Bool :=
  k = EventKind.certified || k = EventKind.certification_failed ||
    k = EventKind.session_error

/-- Modelled from the spec: the full trace of a session — a
`session_start` event, the round events, and the terminal event last
(spec §4.2, §4.6, §7). -/
def sessionTrace (runRound : Nat → List Objection → RoundOutcome)
    (maxRounds : Nat) : List TraceEvent :=
  TraceEvent.mk EventKind.session_start 0 false ::
    ((runSession runRound maxRounds).snd ++
      [TraceEvent.mk (terminalKind (runSession runRound maxRounds).fst) 0
        (decide ((runSession runRound maxRounds).fst = SessionStatus.certified))])

/-- A stored event (spec §3, §4.6): sequence number, kind, payload
(round and flag of the trace event), and the document version stamped at
emission time. -/
structure Event where
  sequence : Nat
  kind : EventKind
  round : Nat
  flag : Bool
  docVersion : Nat
deriving DecidableEq, Inhabited

/-- Modelled from the spec: the per-session event bus (spec §4.6) —
the next sequence number to assign and the durable, append-only log. -/
structure EventBus where
  nextSeq : Nat
  log : List Event
deriving Inhabited

/-- The bus of a fresh session: sequence numbers start at 0. -/
def emptyBus : EventBus :=
  { nextSeq := 0, log := [] }

/-- Modelled from the spec: `publish(kind, payload)` (spec §4.6) —
assigns the next sequence number, stamps the current document version,
and appends to the session's event log. -/
def publish (bus : EventBus) (e : TraceEvent) (docVersion : Nat) : EventBus :=
  { nextSeq := bus.nextSeq + 1,
    log := bus.log ++
      [Event.mk bus.nextSeq e.kind e.round e.flag docVersion] }

/-- Publish a sequence of trace events, each paired with the document
version current at its emission. -/
def publishAll (bus : EventBus) : List (TraceEvent × Nat) → EventBus
  | [] => bus
  | (e, v) :: rest => publishAll (publish bus e v) rest

/-- The events a run of `publish` calls appends when the next sequence
number to assign is `n`: each trace entry is stamped with consecutive
sequence numbers and its emission-time document version. -/
def stampFrom (n : Nat) : List (TraceEvent × Nat) → List Event
  | [] => []
  | (e, v) :: rest =>
      Event.mk n e.kind e.round e.flag v :: stampFrom (n + 1) rest

/-- Consume a log up to and including the first terminal-status event;
the subscription closes there (spec §4.6). -/
def takeToTerminal : List Event → List Event
  | [] => []
  | e :: rest =>
      if isTerminal e.kind then [e] else e :: takeToTerminal rest

/-- Modelled from the spec: `subscribe()` restartable from sequence `n`
(spec §4.6) — the events with sequence number at least `n`, up to and
including the terminal-status event. -/
def subscribeFrom (bus : EventBus) (n : Nat) : List Event :=
  takeToTerminal (bus.log.filter (fun e => n ≤ e.sequence))

/-! ## Core questions

Embedded from `src/frontend/src/lib/types.ts` (`Question`) and
`src/frontend/src/app/session/[id]/page.tsx` (`CORE_QUESTIONS`). -/

/-- Question input types (`types.ts`): text, textarea, select, boolean. -/
inductive QType where
  | text
  | textarea
  | select
  | boolean
deriving DecidableEq, Inhabited

/-- One entry of a select question's option list (`types.ts`):
value and label. -/
structure QOption where
  value : String
  label : String
deriving DecidableEq, Inhabited

/-- Conditional-visibility rule (`types.ts`): the question is shown only
when the answer of the question named `field` equals `value`.  The TS
`value` is `any`; every conditional in `CORE_QUESTIONS` compares a
boolean, so it is modelled as `Bool`. -/
structure ConditionalRule where
  field : String
  value : Bool
deriving DecidableEq, Inhabited

/-- A core question (`types.ts` `Question`): id, type, label, optional
options list, optional placeholder, required flag, optional conditional
rule.  The TS `default?` field is never set in `CORE_QUESTIONS` and is
omitted. -/
structure Question where
  id : String
  type : QType
  question : String
  options : Option (List QOption)
  placeholder : Option String
  required : Bool
  conditional : Option ConditionalRule
deriving DecidableEq, Inhabited

/-- The twelve static core questions, embedded from `CORE_QUESTIONS` in
`src/frontend/src/app/session/[id]/page.tsx`. -/
def CORE_QUESTIONS : List Question :=
  [{ id := "era", type := QType.select,
     question := "What era is this battle set in?",
     options := some
       [QOption.mk "ancient" "Ancient (Pre-500 CE)",
        QOption.mk "early_medieval" "Early Medieval (500-1000 CE)",
        QOption.mk "high_medieval" "High Medieval (1000-1300 CE)",
        QOption.mk "late_medieval" "Late Medieval (1300-1500 CE)",
        QOption.mk "renaissance" "Renaissance (1500-1600 CE)",
        QOption.mk "fantasy" "Fantasy"],
     placeholder := none, required := true, conditional := none },
   { id := "theater", type := QType.text,
     question := "What geographic theater is this battle in?",
     options := none,
     placeholder := some "e.g., Northern France, the Levant, fantasy kingdom",
     required := false, conditional := none },
   { id := "why_battle_now", type := QType.textarea,
     question := "Why is this battle happening now? What forces the engagement?",
     options := none,
     placeholder := some
       "What strategic necessity or narrative reason brings these armies together?",
     required := true, conditional := none },
   { id := "army_sizes", type := QType.textarea,
     question := "What are the army sizes and key asymmetries?",
     options := none,
     placeholder := some
       "e.g., 8,000 vs 12,000; defenders have fortifications; attackers have cavalry advantage",
     required := true, conditional := none },
   { id := "terrain_type", type := QType.select,
     question := "What is the primary terrain type?",
     options := some
       [QOption.mk "plains" "Plains",
        QOption.mk "hills" "Hills",
        QOption.mk "mountains" "Mountains",
        QOption.mk "forest" "Forest",
        QOption.mk "marsh" "Marsh",
        QOption.mk "river_crossing" "River Crossing",
        QOption.mk "coastal" "Coastal",
        QOption.mk "urban" "Urban",
        QOption.mk "desert" "Desert"],
     placeholder := none, required := true, conditional := none },
   { id := "terrain_feature", type := QType.text,
     question := "What is the one defining terrain feature?",
     options := none,
     placeholder := some "e.g., a fordable river, a steep ridge, a fortified bridge",
     required := true, conditional := none },
   { id := "commander_competence_side_a", type := QType.select,
     question := "How competent is Side A's commander?",
     options := some
       [QOption.mk "incompetent" "Incompetent",
        QOption.mk "mediocre" "Mediocre",
        QOption.mk "competent" "Competent",
        QOption.mk "skilled" "Skilled",
        QOption.mk "brilliant" "Brilliant"],
     placeholder := none, required := true, conditional := none },
   { id := "commander_competence_side_b", type := QType.select,
     question := "How competent is Side B's commander?",
     options := some
       [QOption.mk "incompetent" "Incompetent",
        QOption.mk "mediocre" "Mediocre",
        QOption.mk "competent" "Competent",
        QOption.mk "skilled" "Skilled",
        QOption.mk "brilliant" "Brilliant"],
     placeholder := none, required := true, conditional := none },
   { id := "magic_present", type := QType.boolean,
     question := "Is magic present in this world?",
     options := none, placeholder := none, required := true,
     conditional := none },
   { id := "magic_constraints", type := QType.textarea,
     question := "If magic is present, what are its constraints?",
     options := none,
     placeholder := some
       "How powerful is magic? What can't it do? Who can use it?",
     required := false,
     conditional := some (ConditionalRule.mk "magic_present" true) },
   { id := "narrative_outcome", type := QType.select,
     question := "What is the desired narrative outcome?",
     options := some
       [QOption.mk "decisive_victory" "Decisive Victory",
        QOption.mk "pyrrhic_victory" "Pyrrhic Victory",
        QOption.mk "stalemate" "Stalemate",
        QOption.mk "fighting_retreat" "Fighting Retreat",
        QOption.mk "rout" "Rout",
        QOption.mk "other" "Other"],
     placeholder := none, required := true, conditional := none },
   { id := "violence_level", type := QType.select,
     question := "What level of violence detail do you want?",
     options := some
       [QOption.mk "low" "Low - Minimal graphic detail",
        QOption.mk "medium" "Medium - Realistic but not gratuitous",
        QOption.mk "high" "High - Unflinching realism"],
     placeholder := none, required := true, conditional := none }]

/-- Session-creation response shape (`types.ts`
`CreateScenarioResponse`): session identifier, status and the core
questions. -/
structure CreateScenarioResponse where
  session_id : String
  status : String
  core_questions : List Question
deriving DecidableEq, Inhabited

/-- Modelled from the spec: the session-creation operation's response
(spec §6) — the backend handler for `POST /api/scenario` is not among
the checked-in sources.  It returns the fresh session's identifier, the
initial (intake) status, and the set of structured core questions. -/
def createScenarioResponse (sessionId : String) : CreateScenarioResponse :=
  { session_id := sessionId, status := "intake",
    core_questions := CORE_QUESTIONS }

/-! ## Answer submission

The request shape is embedded from `src/frontend/src/lib/api.ts`
(`submitAnswers`) and `types.ts` (`CoreAnswers`,
`SubmitAnswersResponse`); the backend transition is modelled from the
spec (§4.1, §6, §7). -/

/-- Core answers keyed by question id (`types.ts` `CoreAnswers`). -/
structure CoreAnswers where
  era : String
  theater : String
  why_battle_now : String
  army_sizes : String
  terrain_type : String
  terrain_feature : String
  commander_competence_side_a : String
  commander_competence_side_b : String
  magic_present : Bool
  magic_constraints : String
  narrative_outcome : String
  violence_level : String
deriving DecidableEq, Inhabited

/-- The string answer for a given core question id, `none` for the
boolean question `magic_present` (a switch always carries a value). -/
def coreAnswerString (a : CoreAnswers) (qid : String) : Option String :=
  if qid = "era" then some a.era
  else if qid = "theater" then some a.theater
  else if qid = "why_battle_now" then some a.why_battle_now
  else if qid = "army_sizes" then some a.army_sizes
  else if qid = "terrain_type" then some a.terrain_type
  else if qid = "terrain_feature" then some a.terrain_feature
  else if qid = "commander_competence_side_a" then
    some a.commander_competence_side_a
  else if qid = "commander_competence_side_b" then
    some a.commander_competence_side_b
  else if qid = "magic_constraints" then some a.magic_constraints
  else if qid = "narrative_outcome" then some a.narrative_outcome
  else if qid = "violence_level" then some a.violence_level
  else none

/-- Modelled from the spec: the ids of required core questions whose
answer is missing (empty).  Requiredness follows the `required` flags of
`CORE_QUESTIONS`; the boolean question always carries a value. -/
def requiredMissing (a : CoreAnswers) : List String :=
  CORE_QUESTIONS.filterMap (fun q =>
    if q.required then
      match coreAnswerString a q.id with
      | some v => if v = "" then some q.id else none
      | none => none
    else none)

/-- Error for bad or missing intake input (spec §7, `ValidationError`):
surfaced to the caller, the session stays in `intake`. -/
inductive ValidationError where
  | missingFields : List String → ValidationError
deriving DecidableEq, Inhabited

/-- Modelled from the spec: the per-session state owned by the backend
(spec §3 "Session"), restricted to the parts the intake transition
touches — identifier, lifecycle status, stored answers.  Expert
follow-up answers are keyed by strings of the form
`<expert>_<question id>` (spec §6). -/
structure Session where
  id : String
  status : SessionStatus
  coreAnswers : Option CoreAnswers
  expertAnswers : List (String × String)
deriving DecidableEq, Inhabited

/-- Result of a successful answer submission (`types.ts`
`SubmitAnswersResponse`): the session id, its new status and whether the
session is now ready to deliberate. -/
structure SubmitAnswersResult where
  session_id : String
  status : SessionStatus
  ready_to_deliberate : Bool
deriving DecidableEq, Inhabited

/-- Modelled from the spec: the answer-submission operation
(spec §4.1 `intake → deliberating`, §6, §7) — the backend handler for
`POST /api/scenario/{id}/answers` is not among the checked-in sources.
It accepts core answers keyed by question id and expert answers keyed by
`<expert>_<question id>`; when every required core answer is present it
stores the answers and moves the session from `intake` to
`deliberating`, reporting readiness; when required fields are missing it
rejects with a `ValidationError` and leaves the session unchanged. -/
def submitAnswersStep (sess : Session) (core : CoreAnswers)
    (expertAnswers : List (String × String)) :
    Session × Except ValidationError SubmitAnswersResult :=
  if sess.status = SessionStatus.intake then
    match requiredMissing core with
    | [] =>
        let sess2 : Session :=
          { sess with status := SessionStatus.deliberating,
                      coreAnswers := some core,
                      expertAnswers := expertAnswers }
        (sess2, Except.ok
          (SubmitAnswersResult.mk sess.id SessionStatus.deliberating true))
    | missing => (sess, Except.error (ValidationError.missingFields missing))
  else (sess, Except.error (ValidationError.missingFields []))

/-! ## The `useDeliberation` client hook

Embedded from the `useDeliberation` hook source (frontend hooks module):
the `DeliberationState` record, the `EventSource` message handler, the
error handler, and the delivery discipline (a closed `EventSource`
dispatches no further events). -/

/-- Hook status values (`DeliberationState.status`):
idle / connecting / deliberating / complete / error. -/
inductive DStatus where
  | idle
  | connecting
  | deliberating
  | complete
  | error
deriving DecidableEq, Inhabited

/-- The `data.data` payload of a stream message, restricted to the
fields the handler reads: `round`, `certified`, `success`, `error`.
Contribution/objection payloads are appended verbatim, so the record
also stands for those. -/
structure StreamPayload where
  round : Option Nat
  certified : Option Bool
  success : Option Bool
  errorMsg : Option String
deriving DecidableEq, Inhabited

/-- A successfully parsed stream message (the result of
`JSON.parse(e.data)`): `event_type`, `sequence`, and the optional
`data` payload. -/
structure ParsedEvent where
  event_type : Option String
  sequence : Option Nat
  payload : Option StreamPayload
deriving DecidableEq, Inhabited

/-- The hook state (`DeliberationState` in the hook source).  The
`events` entries model the appended `{ type, data, sequence }`
records. -/
structure HookState where
  status : DStatus
  currentRound : Nat
  maxRounds : Nat
  events : List (String × ParsedEvent × Option Nat)
  contributions : List StreamPayload
  objections : List StreamPayload
  error : Option String
  certified : Bool
deriving DecidableEq, Inhabited

/-- The initial hook state (the `useState` initializer): idle, round 0
of 3, empty logs, no error, not certified. -/
def initialHookState : HookState :=
  { status := DStatus.idle, currentRound := 0, maxRounds := 3,
    events := [], contributions := [], objections := [],
    error := none, certified := false }

/-- `data.event_type || "unknown"`: a missing or empty (falsy) event
type reads as `"unknown"`. -/
def eventTypeOf (p : ParsedEvent) : String :=
  match p.event_type with
  | some s => if s = "" then "unknown" else s
  | none => "unknown"

/-- JS truthiness of `data.data?.certified`: true exactly when the
payload is present and the field is `true`. -/
def payloadCertified (p : ParsedEvent) : Bool :=
  ((p.payload.bind StreamPayload.certified).getD false)

/-- JS truthiness of `data.data?.success`. -/
def payloadSuccess (p : ParsedEvent) : Bool :=
  ((p.payload.bind StreamPayload.success).getD false)

/-- `data.data?.round || s.currentRound + 1`: a missing — or `0`, which
is falsy — round reads as the current round plus one. -/
def roundOf (p : ParsedEvent) (currentRound : Nat) : Nat :=
  match p.payload.bind StreamPayload.round with
  | some r => if r = 0 then currentRound + 1 else r
  | none => currentRound + 1

/-- `data.data?.error || "Unknown error"`: a missing or empty error
message reads as `"Unknown error"`. -/
def errorMsgOf (p : ParsedEvent) : String :=
  match p.payload.bind StreamPayload.errorMsg with
  | some s => if s = "" then "Unknown error" else s
  | none => "Unknown error"

/-- The `eventSource.onmessage` handler of the hook, for one parsed
message: the new state paired with whether the handler called
`eventSource.close()`.  Every message is appended to `events`; the
switch on the event type updates the rest of the state; the kinds
`certified`, `certification_failed`, `session_end` and `session_error`
close the source. -/
def handleMessage (s : HookState) (p : ParsedEvent) : HookState × Bool :=
  let et := eventTypeOf p
  let s1 : HookState :=
    { s with events := s.events ++ [(et, p, p.sequence)] }
  if et = "session_start" then
    ({ s1 with status := DStatus.deliberating }, false)
  else if et = "round_start" then
    ({ s1 with currentRound := roundOf p s.currentRound }, false)
  else if et = "expert_contribution" then
    (match p.payload with
     | some pl => { s1 with contributions := s.contributions ++ [pl] }
     | none => s1, false)
  else if et = "redteam_objection" then
    (match p.payload with
     | some pl => { s1 with objections := s.objections ++ [pl] }
     | none => s1, false)
  else if et = "round_end" then
    (if payloadCertified p then { s1 with certified := true } else s1, false)
  else if et = "certified" then
    ({ s1 with status := DStatus.complete, certified := true }, true)
  else if et = "certification_failed" then
    ({ s1 with status := DStatus.complete, certified := false }, true)
  else if et = "session_end" then
    ({ s1 with status := DStatus.complete, certified := payloadSuccess p }, true)
  else if et = "session_error" then
    ({ s1 with status := DStatus.error, error := some (errorMsgOf p) }, true)
  else (s1, false)

/-- An incoming stream message: either its `data` fails `JSON.parse`
(the handler catches the exception and drops the message), or it parses
to a `ParsedEvent`. -/
inductive StreamMsg where
  | invalid : StreamMsg
  | valid : ParsedEvent → StreamMsg
deriving DecidableEq, Inhabited

/-- The hook's connection: the state together with whether
`eventSource.close()` has been called. -/
structure HookConn where
  st : HookState
  closed : Bool
deriving DecidableEq, Inhabited

/-- Deliver one message to the hook: a closed `EventSource` dispatches
nothing; an unparsable message is dropped by the catch block; a parsed
message goes through `handleMessage`. -/
def deliverMsg (c : HookConn) (m : StreamMsg) : HookConn :=
  if c.closed then c
  else
    match m with
    | StreamMsg.invalid => c
    | StreamMsg.valid p =>
        let r := handleMessage c.st p
        HookConn.mk r.fst r.snd

/-- Deliver a sequence of messages in order. -/
def deliverAll (c : HookConn) : List StreamMsg → HookConn
  | [] => c
  | m :: ms => deliverAll (deliverMsg c m) ms

/-- The `eventSource.onerror` handler: when the certified flag is
already set the hook completes quietly (status `complete`, no error),
otherwise it reports status `error` with message "Connection lost"; in
either case it closes the source. -/
def handleConnError (c : HookConn) : HookConn :=
  HookConn.mk
    { c.st with
        status := if c.st.certified then DStatus.complete else DStatus.error,
        error := if c.st.certified then none else some "Connection lost" }
    true

/-- A medium-severity objection, below the default blocking threshold. -/
def objMedium : Objection :=
  { challenger := "rules_lawyer", round := 1, field := ["aftermath"],
    text := "casualty estimate unsupported", severity := Severity.medium,
    suggestion := none, addressed := false }

/-- A critical-severity unaddressed objection. -/
def objCritical : Objection :=
  { challenger := "feasibility", round := 1, field := ["timeline"],
    text := "timeline is impossible", severity := Severity.critical,
    suggestion := some "compress the night march", addressed := false }

/-- A round function that never certifies and carries nothing forward. -/
def neverCertifies : Nat → List Objection → RoundOutcome :=
  fun _ _ => RoundOutcome.mk false []

/-- A round function that certifies every round. -/
def alwaysCertifies : Nat → List Objection → RoundOutcome :=
  fun _ _ => RoundOutcome.mk true []

/-- The published trace of the immediately-certifying session, each
event paired with its emission-time document version. -/
def psW : List (TraceEvent × Nat) :=
  [(TraceEvent.mk EventKind.session_start 0 false, 0),
   (TraceEvent.mk EventKind.round_start 1 false, 0),
   (TraceEvent.mk EventKind.round_end 1 true, 1),
   (TraceEvent.mk EventKind.certified 0 true, 1)]

/-- A concrete session for the intake transition. -/
def sessionIntake : Session :=
  { id := "s1", status := SessionStatus.intake, coreAnswers := none,
    expertAnswers := [] }

/-- Concrete core answers with every required field filled. -/
def coreAnswersOk : CoreAnswers :=
  { era := "ancient", theater := "", why_battle_now := "succession crisis",
    army_sizes := "8000 vs 12000", terrain_type := "plains",
    terrain_feature := "a fordable river",
    commander_competence_side_a := "competent",
    commander_competence_side_b := "mediocre", magic_present := false,
    magic_constraints := "", narrative_outcome := "decisive_victory",
    violence_level := "medium" }

/-- Concrete core answers with required fields left empty. -/
def coreAnswersEmpty : CoreAnswers :=
  { era := "", theater := "", why_battle_now := "", army_sizes := "",
    terrain_type := "", terrain_feature := "",
    commander_competence_side_a := "", commander_competence_side_b := "",
    magic_present := false, magic_constraints := "",
    narrative_outcome := "", violence_level := "" }

/-- A parsed `certified` stream message. -/
def pCert : ParsedEvent :=
  { event_type := some "certified", sequence := some 9, payload := none }

/-- A parsed `round_end` message whose payload carries
`certified: true`. -/
def pRoundEndCert : ParsedEvent :=
  { event_type := some "round_end", sequence := some 7,
    payload := some (StreamPayload.mk (some 1) (some true) none none) }

/-- Messages arriving after the stream has been closed. -/
def msgsAfter : List StreamMsg :=
  [StreamMsg.valid (ParsedEvent.mk (some "round_start") (some 10) none),
   StreamMsg.invalid]

/-! ## Theorems -/

/-- A successful application bumps `version` by exactly one. -/
theorem applyDelta_version (doc : ScenarioDocument) (d : Delta)
    (doc2 : ScenarioDocument) (h : applyDelta doc d = Except.ok doc2) :
    doc2.version = doc.version + 1 := by
  unfold applyDelta at h
  cases hop : d.op <;> rw [hop] at h
  · cases hget : docGet doc d.path <;> rw [hget] at h
    · by_cases hp : d.path = []
      · simp [hp] at h
      · simp [hp] at h
        rw [← h]
    · simp at h
      rw [← h]
  · cases hget : docGet doc d.path <;> rw [hget] at h
    · simp at h
    · rename_i v
      cases v <;> simp at h
      rw [← h]
  · cases hget : docGet doc d.path <;> rw [hget] at h
    · cases d.value <;> simp at h
    · rename_i v
      cases v <;> cases hv : d.value <;> simp [hv] at h
      rw [← h]

/-- Version accounting along a whole delta run: the final version is the
initial version plus the number of accepted deltas. -/
theorem applyDeltas_version (ds : List Delta) (doc : ScenarioDocument) :
    (applyDeltas doc ds).version = doc.version + acceptedCount doc ds := by
  induction ds generalizing doc with
  | nil => simp [applyDeltas, acceptedCount]
  | cons d ds ih =>
      cases h : applyDelta doc d with
      | ok doc2 =>
          rw [show applyDeltas doc (d :: ds) = applyDeltas doc2 ds by
                simp [applyDeltas, h],
              show acceptedCount doc (d :: ds) = acceptedCount doc2 ds + 1 by
                simp [acceptedCount, h],
              ih doc2, applyDelta_version doc d doc2 h]
          omega
      | error e =>
          rw [show applyDeltas doc (d :: ds) = applyDeltas doc ds by
                simp [applyDeltas, h],
              show acceptedCount doc (d :: ds) = acceptedCount doc ds by
                simp [acceptedCount, h]]
          exact ih doc

/-- C1: the document version is monotonically non-decreasing, increments
exactly once per successfully applied delta, and a delta is applied
all-or-nothing: after any delta sequence the final version equals the
initial version plus the count of accepted deltas, a rejected delta
leaves the document (hence its version) unchanged, and an accepted delta
replaces the document wholesale with the engine's output, whose version
is the old version plus one. -/
theorem delta_version_invariant (doc : ScenarioDocument) (ds : List Delta) :
    (applyDeltas doc ds).version = doc.version + acceptedCount doc ds ∧
    doc.version ≤ (applyDeltas doc ds).version ∧
    (∀ d e, applyDelta doc d = Except.error e →
      applyDeltas doc (d :: ds) = applyDeltas doc ds) ∧
    (∀ d doc2, applyDelta doc d = Except.ok doc2 →
      doc2.version = doc.version + 1 ∧
      applyDeltas doc (d :: ds) = applyDeltas doc2 ds) := by
  refine ⟨applyDeltas_version ds doc, ?_, ?_, ?_⟩
  · rw [applyDeltas_version ds doc]
    omega
  · intro d e h
    simp [applyDeltas, h]
  · intro d doc2 h
    exact ⟨applyDelta_version doc d doc2 h, by simp [applyDeltas, h]⟩

/-- Witness for C1 at a concrete document and delta sequence: the
version equation holds for an accepted `set` delta, and a rejected
malformed delta changes nothing. -/
theorem delta_version_invariant_witness :
    (applyDeltas doc0 [dSet]).version = doc0.version + acceptedCount doc0 [dSet] ∧
    applyDeltas doc0 (dBad :: [dSet]) = applyDeltas doc0 [dSet] :=
  ⟨(delta_version_invariant doc0 [dSet]).1,
   (delta_version_invariant doc0 [dSet]).2.2.1 dBad DeltaError.invalidDelta rfl⟩

/-- C2: certification is a pure decision over the round's objections and
the blocking threshold — certified on the empty list; certified iff no
objection has severity at or above the threshold and remains
unaddressed; an objection is addressed exactly when some delta applied
later in the same round targets its field; and marking then deciding
gives the round-end rule. -/
theorem certification_policy_correct (threshold : Severity) :
    certify threshold [] = true ∧
    (∀ objs : List Objection, certify threshold objs = true ↔
      ∀ o ∈ objs, sevRank o.severity < sevRank threshold ∨ o.addressed = true) ∧
    (∀ (o : Objection) (ds : List Delta), addressedBy o ds = true ↔
      ∃ d ∈ ds, d.round = o.round ∧ d.path = o.field) ∧
    (∀ (objs : List Objection) (ds : List Delta),
      certify threshold (markAddressed objs ds) = true ↔
      ∀ o ∈ objs, sevRank o.severity < sevRank threshold ∨ o.addressed = true ∨
        addressedBy o ds = true) := by
  refine ⟨rfl, ?_, ?_, ?_⟩
  · intro objs
    simp [certify, List.all_eq_true]
  · intro o ds
    simp [addressedBy, List.any_eq_true]
  · intro objs ds
    simp [certify, markAddressed, List.all_eq_true]

/-- One unfolding of the scheduler loop: a certifying round stops the
session with status `certified` right after its `round_end`. -/
theorem roundLoop_certified (rr : Nat → List Objection → RoundOutcome)
    (m r : Nat) (c : List Objection) (h : (rr r c).certified = true) :
    roundLoop rr m r c =
      (SessionStatus.certified,
       [TraceEvent.mk EventKind.round_start r false,
        TraceEvent.mk EventKind.round_end r true]) := by
  unfold roundLoop
  simp [h]

/-- One unfolding of the scheduler loop: a non-certifying final round
stops the session with status `failed`. -/
theorem roundLoop_failedFinal (rr : Nat → List Objection → RoundOutcome)
    (m r : Nat) (c : List Objection) (h : (rr r c).certified = false)
    (h2 : m ≤ r) :
    roundLoop rr m r c =
      (SessionStatus.failed,
       [TraceEvent.mk EventKind.round_start r false,
        TraceEvent.mk EventKind.round_end r false]) := by
  unfold roundLoop
  simp [h, h2]

/-- One unfolding of the scheduler loop: a non-certifying, non-final
round continues to round `r+1`, carrying the unaddressed objections. -/
theorem roundLoop_continue (rr : Nat → List Objection → RoundOutcome)
    (m r : Nat) (c : List Objection) (h : (rr r c).certified = false)
    (h2 : r < m) :
    roundLoop rr m r c =
      ((roundLoop rr m (r + 1) (rr r c).unaddressed).fst,
       TraceEvent.mk EventKind.round_start r false ::
         TraceEvent.mk EventKind.round_end r false ::
         (roundLoop rr m (r + 1) (rr r c).unaddressed).snd) := by
  rw [roundLoop]
  simp [h, Nat.not_le.mpr h2]

/-- C3: a session with `maxRounds = 3` whose rounds never certify stops
with status `failed` after emitting exactly 3 `round_end` events; in
general the loop stops with `certified` when the round certifies, stops
with `failed` at the final round otherwise, and else continues to round
`r+1` carrying forward the unaddressed objections. -/
theorem round_scheduler_termination :
    (∀ rr : Nat → List Objection → RoundOutcome,
      (∀ r c, (rr r c).certified = false) →
      (runSession rr 3).fst = SessionStatus.failed ∧
      countRoundEnd (runSession rr 3).snd = 3) ∧
    (∀ (rr : Nat → List Objection → RoundOutcome) (m r : Nat)
       (c : List Objection), (rr r c).certified = true →
      roundLoop rr m r c =
        (SessionStatus.certified,
         [TraceEvent.mk EventKind.round_start r false,
          TraceEvent.mk EventKind.round_end r true])) ∧
    (∀ (rr : Nat → List Objection → RoundOutcome) (m r : Nat)
       (c : List Objection), (rr r c).certified = false → m ≤ r →
      roundLoop rr m r c =
        (SessionStatus.failed,
         [TraceEvent.mk EventKind.round_start r false,
          TraceEvent.mk EventKind.round_end r false])) ∧
    (∀ (rr : Nat → List Objection → RoundOutcome) (m r : Nat)
       (c : List Objection), (rr r c).certified = false → r < m →
      roundLoop rr m r c =
        ((roundLoop rr m (r + 1) (rr r c).unaddressed).fst,
         TraceEvent.mk EventKind.round_start r false ::
           TraceEvent.mk EventKind.round_end r false ::
           (roundLoop rr m (r + 1) (rr r c).unaddressed).snd)) := by
  refine ⟨?_, roundLoop_certified, roundLoop_failedFinal, roundLoop_continue⟩
  intro rr h
  have e1 := roundLoop_continue rr 3 1 [] (h 1 []) (by omega)
  have e2 := roundLoop_continue rr 3 2 ((rr 1 []).unaddressed) (h 2 _)
    (by omega)
  have e3 := roundLoop_failedFinal rr 3 3
    ((rr 2 ((rr 1 []).unaddressed)).unaddressed) (h 3 _) (by omega)
  constructor
  · show (roundLoop rr 3 1 []).fst = SessionStatus.failed
    rw [e1, e2, e3]
  · show countRoundEnd (roundLoop rr 3 1 []).snd = 3
    rw [e1, e2, e3]
    rfl

/-- Witness for C3: the never-certifying session fails after exactly 3
`round_end` events, and an immediately certifying round stops the loop
with status `certified`. -/
theorem round_scheduler_termination_witness :
    (runSession neverCertifies 3).fst = SessionStatus.failed ∧
    countRoundEnd (runSession neverCertifies 3).snd = 3 ∧
    roundLoop alwaysCertifies 3 1 [] =
      (SessionStatus.certified,
       [TraceEvent.mk EventKind.round_start 1 false,
        TraceEvent.mk EventKind.round_end 1 true]) := by
  have h := round_scheduler_termination
  have h1 := h.1 neverCertifies (fun r c => rfl)
  exact ⟨h1.1, h1.2, h.2.1 alwaysCertifies 3 1 [] rfl⟩

/-- What a run of publishes does to the log and the sequence counter:
the stamped events are appended, and the counter advances by the number
of publishes. -/
theorem publishAll_log (ps : List (TraceEvent × Nat)) (bus : EventBus) :
    (publishAll bus ps).log = bus.log ++ stampFrom bus.nextSeq ps ∧
    (publishAll bus ps).nextSeq = bus.nextSeq + ps.length := by
  induction ps generalizing bus with
  | nil => simp [publishAll, stampFrom]
  | cons q rest ih =>
      obtain ⟨e, v⟩ := q
      have h := ih (publish bus e v)
      refine ⟨?_, ?_⟩
      · simp only [publishAll]
        rw [h.1]
        simp [publish, stampFrom]
      · simp only [publishAll]
        rw [h.2]
        simp [publish]
        omega

/-- The stamped sequence numbers are consecutive from `n`. -/
theorem stampFrom_map_sequence (ps : List (TraceEvent × Nat)) (n : Nat) :
    (stampFrom n ps).map Event.sequence = List.range' n ps.length := by
  induction ps generalizing n with
  | nil => simp [stampFrom]
  | cons q rest ih =>
      obtain ⟨e, v⟩ := q
      simp [stampFrom, ih, List.range'_succ]

/-- Each stamped event carries the document version given at its
emission. -/
theorem stampFrom_map_docVersion (ps : List (TraceEvent × Nat)) (n : Nat) :
    (stampFrom n ps).map Event.docVersion = ps.map Prod.snd := by
  induction ps generalizing n with
  | nil => rfl
  | cons q rest ih =>
      obtain ⟨e, v⟩ := q
      simp [stampFrom, ih]

/-- Stamping preserves the event kinds. -/
theorem stampFrom_map_kind (ps : List (TraceEvent × Nat)) (n : Nat) :
    (stampFrom n ps).map Event.kind = ps.map (fun q => q.fst.kind) := by
  induction ps generalizing n with
  | nil => rfl
  | cons q rest ih =>
      obtain ⟨e, v⟩ := q
      simp [stampFrom, ih]

/-- Every terminal kind announced for a session status is a
terminal-status event kind. -/
theorem isTerminal_terminalKind (s : SessionStatus) :
    isTerminal (terminalKind s) = true := by
  cases s <;> rfl

/-- The last event of a session trace is its terminal event. -/
theorem sessionTrace_getLast (rr : Nat → List Objection → RoundOutcome)
    (m : Nat) :
    (sessionTrace rr m).getLast? =
      some (TraceEvent.mk (terminalKind (runSession rr m).fst) 0
        (decide ((runSession rr m).fst = SessionStatus.certified))) := by
  unfold sessionTrace
  rw [← List.cons_append]
  exact List.getLast?_concat _

/-- Every event the round loop emits is a `round_start` or a
`round_end`. -/
theorem roundLoop_kinds (rr : Nat → List Objection → RoundOutcome)
    (m : Nat) :
    ∀ (k r : Nat) (c : List Objection), m - r ≤ k →
      ∀ e ∈ (roundLoop rr m r c).snd,
        e.kind = EventKind.round_start ∨ e.kind = EventKind.round_end := by
  intro k
  induction k with
  | zero =>
      intro r c hk e he
      cases h1 : (rr r c).certified with
      | true =>
          rw [roundLoop_certified rr m r c h1] at he
          simp at he
          rcases he with rfl | rfl <;> simp
      | false =>
          rw [roundLoop_failedFinal rr m r c h1 (by omega)] at he
          simp at he
          rcases he with rfl | rfl <;> simp
  | succ k ih =>
      intro r c hk e he
      cases h1 : (rr r c).certified with
      | true =>
          rw [roundLoop_certified rr m r c h1] at he
          simp at he
          rcases he with rfl | rfl <;> simp
      | false =>
          by_cases h2 : m ≤ r
          · rw [roundLoop_failedFinal rr m r c h1 h2] at he
            simp at he
            rcases he with rfl | rfl <;> simp
          · rw [roundLoop_continue rr m r c h1 (by omega)] at he
            simp at he
            rcases he with rfl | rfl | he
            · simp
            · simp
            · exact ih (r + 1) ((rr r c).unaddressed) (by omega) e he

/-- No event before the last of a session trace is terminal. -/
theorem sessionTrace_dropLast (rr : Nat → List Objection → RoundOutcome)
    (m : Nat) :
    ∀ e ∈ (sessionTrace rr m).dropLast, isTerminal e.kind = false := by
  intro e he
  unfold sessionTrace at he
  rw [← List.cons_append, List.dropLast_concat] at he
  rcases List.mem_cons.mp he with rfl | h
  · rfl
  · rcases roundLoop_kinds rr m m 1 [] (by omega) e h with h1 | h1 <;>
      simp [isTerminal, h1]

/-- A log whose only terminal event is its last entry is consumed whole
by the subscription. -/
theorem takeToTerminal_eq_self :
    ∀ l : List Event,
      (∀ e ∈ l.dropLast, isTerminal e.kind = false) →
      (∀ e, l.getLast? = some e → isTerminal e.kind = true) →
      takeToTerminal l = l := by
  intro l
  induction l with
  | nil => intro _ _; rfl
  | cons e rest ih =>
      intro h1 h2
      cases rest with
      | nil => cases hI : isTerminal e.kind <;> simp [takeToTerminal, hI]
      | cons e2 rest2 =>
          have hne : isTerminal e.kind = false :=
            h1 e (by rw [List.dropLast_cons₂]; exact List.mem_cons_self e _)
          simp only [takeToTerminal, hne, Bool.false_eq_true, if_false,
            List.cons.injEq, true_and]
          exact ih
            (fun x hx => h1 x
              (by rw [List.dropLast_cons₂]; exact List.mem_cons_of_mem _ hx))
            (fun x hx => h2 x (by rw [List.getLast?_cons_cons]; exact hx))

/-- The kinds of a published session log are the kinds of its trace. -/
theorem sessionLog_kinds (rr : Nat → List Objection → RoundOutcome)
    (m : Nat) (ps : List (TraceEvent × Nat))
    (h : ps.map Prod.fst = sessionTrace rr m) :
    (publishAll emptyBus ps).log.map Event.kind =
      (sessionTrace rr m).map TraceEvent.kind := by
  rw [(publishAll_log ps emptyBus).1, ← h, List.map_map]
  simp [emptyBus, stampFrom_map_kind, Function.comp]

/-- The last event of a published session log is terminal. -/
theorem sessionLog_terminal_last (rr : Nat → List Objection → RoundOutcome)
    (m : Nat) (ps : List (TraceEvent × Nat))
    (h : ps.map Prod.fst = sessionTrace rr m) :
    ∃ e, (publishAll emptyBus ps).log.getLast? = some e ∧
      isTerminal e.kind = true := by
  have h2 := congrArg List.getLast? (sessionLog_kinds rr m ps h)
  rw [List.getLast?_map, List.getLast?_map, sessionTrace_getLast] at h2
  cases hl : (publishAll emptyBus ps).log.getLast? with
  | none => rw [hl] at h2; simp at h2
  | some e =>
      rw [hl] at h2
      simp at h2
      exact ⟨e, rfl, by rw [h2]; exact isTerminal_terminalKind _⟩

/-- No event before the last of a published session log is terminal. -/
theorem sessionLog_dropLast (rr : Nat → List Objection → RoundOutcome)
    (m : Nat) (ps : List (TraceEvent × Nat))
    (h : ps.map Prod.fst = sessionTrace rr m) :
    ∀ e ∈ (publishAll emptyBus ps).log.dropLast, isTerminal e.kind = false := by
  intro e he
  have hmem : e.kind ∈ ((publishAll emptyBus ps).log.map Event.kind).dropLast := by
    rw [← List.map_dropLast]
    exact List.mem_map_of_mem _ he
  rw [sessionLog_kinds rr m ps h, ← List.map_dropLast] at hmem
  rcases List.mem_map.mp hmem with ⟨te, hte, hkind⟩
  rw [← hkind]
  exact sessionTrace_dropLast rr m te hte

/-- C4: for every session, the sequence numbers assigned by `publish`
from a fresh bus are `0, 1, 2, ...` — strictly increasing with no
gaps — every published event is stamped with the document version
current at its emission, and the terminal event of a published session
trace is the last event of the log. -/
theorem event_bus_invariant :
    (∀ ps : List (TraceEvent × Nat),
      (publishAll emptyBus ps).log.map Event.sequence = List.range ps.length) ∧
    (∀ ps : List (TraceEvent × Nat),
      (publishAll emptyBus ps).log.map Event.docVersion = ps.map Prod.snd) ∧
    (∀ (rr : Nat → List Objection → RoundOutcome) (m : Nat)
       (ps : List (TraceEvent × Nat)), ps.map Prod.fst = sessionTrace rr m →
      ∃ e, (publishAll emptyBus ps).log.getLast? = some e ∧
        isTerminal e.kind = true) := by
  refine ⟨?_, ?_, sessionLog_terminal_last⟩
  · intro ps
    rw [(publishAll_log ps emptyBus).1]
    simp [emptyBus, stampFrom_map_sequence, List.range_eq_range']
  · intro ps
    rw [(publishAll_log ps emptyBus).1]
    simp [emptyBus, stampFrom_map_docVersion]

/-- Witness for C4 on the concrete immediately-certifying session
trace: consecutive sequence numbers from 0, faithful version stamps,
and a terminal last event. -/
theorem event_bus_invariant_witness :
    (publishAll emptyBus psW).log.map Event.sequence = List.range psW.length ∧
    (publishAll emptyBus psW).log.map Event.docVersion = psW.map Prod.snd ∧
    ∃ e, (publishAll emptyBus psW).log.getLast? = some e ∧
      isTerminal e.kind = true := by
  refine ⟨event_bus_invariant.1 psW, event_bus_invariant.2.1 psW,
    event_bus_invariant.2.2 alwaysCertifies 3 psW ?_⟩
  unfold sessionTrace runSession
  rw [roundLoop_certified alwaysCertifies 3 1 [] rfl]
  rfl

/-- C5: every session trace ends with a terminal event (`certified`,
`certification_failed` or `session_error`) and contains no terminal
event earlier; subscribing from sequence 0 returns the whole finite
log, which terminates exactly at the terminal event — consumers never
see a silent drop. -/
theorem stream_terminal_guarantee :
    (∀ (rr : Nat → List Objection → RoundOutcome) (m : Nat),
      ∃ t, (sessionTrace rr m).getLast? = some t ∧ isTerminal t.kind = true) ∧
    (∀ (rr : Nat → List Objection → RoundOutcome) (m : Nat),
      ∀ e ∈ (sessionTrace rr m).dropLast, isTerminal e.kind = false) ∧
    (∀ (rr : Nat → List Objection → RoundOutcome) (m : Nat)
       (ps : List (TraceEvent × Nat)), ps.map Prod.fst = sessionTrace rr m →
      subscribeFrom (publishAll emptyBus ps) 0 = (publishAll emptyBus ps).log ∧
      ∃ e, (subscribeFrom (publishAll emptyBus ps) 0).getLast? = some e ∧
        isTerminal e.kind = true) := by
  refine ⟨?_, sessionTrace_dropLast, ?_⟩
  · intro rr m
    exact ⟨_, sessionTrace_getLast rr m, isTerminal_terminalKind _⟩
  · intro rr m ps h
    have hfull : subscribeFrom (publishAll emptyBus ps) 0 =
        (publishAll emptyBus ps).log := by
      unfold subscribeFrom
      rw [List.filter_eq_self.mpr (by intro e he; simp)]
      refine takeToTerminal_eq_self _ (sessionLog_dropLast rr m ps h) ?_
      intro e he
      rcases sessionLog_terminal_last rr m ps h with ⟨e2, h2, h3⟩
      rw [he] at h2
      rw [Option.some.inj h2]
      exact h3
    exact ⟨hfull, by rw [hfull]; exact sessionLog_terminal_last rr m ps h⟩

/-- Witness for C5 on the concrete immediately-certifying session: the
trace's last event is terminal and the subscription from 0 returns the
whole log. -/
theorem stream_terminal_guarantee_witness :
    (∃ t, (sessionTrace alwaysCertifies 3).getLast? = some t ∧
      isTerminal t.kind = true) ∧
    subscribeFrom (publishAll emptyBus psW) 0 = (publishAll emptyBus psW).log := by
  refine ⟨stream_terminal_guarantee.1 alwaysCertifies 3,
    (stream_terminal_guarantee.2.2 alwaysCertifies 3 psW ?_).1⟩
  unfold sessionTrace runSession
  rw [roundLoop_certified alwaysCertifies 3 1 [] rfl]
  rfl

/-- C6: the session-creation response carries the session identifier
and the structured core questions; every core question has an id, a
type among text / textarea / select / boolean, a non-empty label, its
options and required flag, and any conditional-visibility rule is keyed
to a different question's id. -/
theorem session_creation_questions :
    (∀ sid, (createScenarioResponse sid).session_id = sid ∧
      (createScenarioResponse sid).core_questions = CORE_QUESTIONS) ∧
    (∀ q ∈ CORE_QUESTIONS,
      (q.type = QType.text ∨ q.type = QType.textarea ∨
        q.type = QType.select ∨ q.type = QType.boolean) ∧
      q.id ≠ "" ∧ q.question ≠ "" ∧
      (q.type = QType.select → q.options.isSome = true) ∧
      (∀ c, q.conditional = some c →
        c.field ≠ q.id ∧ ∃ q2 ∈ CORE_QUESTIONS, q2.id = c.field)) := by
  constructor
  · intro sid
    exact ⟨rfl, rfl⟩
  · decide

/-- Witness for C6 at the conditional question `magic_constraints`
(index 9 of `CORE_QUESTIONS`): its type is among the four, and its
conditional rule is keyed to the id of another core question. -/
theorem session_creation_questions_witness :
    (createScenarioResponse "session-1").session_id = "session-1" ∧
    ((CORE_QUESTIONS.get ⟨9, by decide⟩).type = QType.text ∨
      (CORE_QUESTIONS.get ⟨9, by decide⟩).type = QType.textarea ∨
      (CORE_QUESTIONS.get ⟨9, by decide⟩).type = QType.select ∨
      (CORE_QUESTIONS.get ⟨9, by decide⟩).type = QType.boolean) ∧
    (∃ q2 ∈ CORE_QUESTIONS, q2.id = "magic_present") := by
  have h := session_creation_questions
  have hq := h.2 (CORE_QUESTIONS.get ⟨9, by decide⟩) (by decide)
  refine ⟨(h.1 "session-1").1, hq.1, ?_⟩
  exact (hq.2.2.2.2 (ConditionalRule.mk "magic_present" true) (by decide)).2

/-- C7: answer submission accepts core answers keyed by question id and
expert answers keyed by `<expert>_<question id>`; when every required
field is present it transitions the session from `intake` to
`deliberating`, stores the answers, and reports the session ready to
deliberate; when required fields are missing it rejects with a
`ValidationError` and the session stays in `intake`, unchanged. -/
theorem answer_submission_transition (sess : Session) (core : CoreAnswers)
    (ea : List (String × String)) (h : sess.status = SessionStatus.intake) :
    (requiredMissing core = [] →
      (submitAnswersStep sess core ea).fst.status = SessionStatus.deliberating ∧
      (submitAnswersStep sess core ea).fst.coreAnswers = some core ∧
      (submitAnswersStep sess core ea).fst.expertAnswers = ea ∧
      (submitAnswersStep sess core ea).snd = Except.ok
        (SubmitAnswersResult.mk sess.id SessionStatus.deliberating true)) ∧
    (requiredMissing core ≠ [] →
      (submitAnswersStep sess core ea).fst = sess ∧
      (submitAnswersStep sess core ea).fst.status = SessionStatus.intake ∧
      (submitAnswersStep sess core ea).snd = Except.error
        (ValidationError.missingFields (requiredMissing core))) := by
  constructor
  · intro hm
    simp [submitAnswersStep, h, hm]
  · intro hm
    cases hm2 : requiredMissing core with
    | nil => exact absurd hm2 hm
    | cons a as =>
        refine ⟨?_, ?_, ?_⟩ <;> simp [submitAnswersStep, h, hm2]

/-- Witness for C7: fully answered core questions move the intake
session to `deliberating` and report readiness; empty answers are
rejected with a `ValidationError` naming the missing required ids. -/
theorem answer_submission_transition_witness :
    requiredMissing coreAnswersOk = [] ∧
    (submitAnswersStep sessionIntake coreAnswersOk []).fst.status =
      SessionStatus.deliberating ∧
    (submitAnswersStep sessionIntake coreAnswersOk []).snd = Except.ok
      (SubmitAnswersResult.mk "s1" SessionStatus.deliberating true) ∧
    (submitAnswersStep sessionIntake coreAnswersEmpty []).fst = sessionIntake ∧
    (submitAnswersStep sessionIntake coreAnswersEmpty []).snd = Except.error
      (ValidationError.missingFields (requiredMissing coreAnswersEmpty)) := by
  have h1 := answer_submission_transition sessionIntake coreAnswersOk [] rfl
  have h2 := answer_submission_transition sessionIntake coreAnswersEmpty [] rfl
  have hOk := h1.1 (by decide)
  have hBad := h2.2 (by decide)
  exact ⟨by decide, hOk.1, hOk.2.2.2, hBad.1, hBad.2.2⟩

/-- C8: processing a stream message of kind `certified`,
`certification_failed`, `session_end` or `session_error` closes the
`EventSource`, and a closed connection's state is final — no
subsequently delivered message changes it. -/
theorem terminal_event_finality (s : HookState) (p : ParsedEvent)
    (h : eventTypeOf p = "certified" ∨ eventTypeOf p = "certification_failed" ∨
      eventTypeOf p = "session_end" ∨ eventTypeOf p = "session_error") :
    (handleMessage s p).snd = true ∧
    (∀ ms, deliverAll
        (HookConn.mk (handleMessage s p).fst (handleMessage s p).snd) ms =
      HookConn.mk (handleMessage s p).fst true) ∧
    (∀ (c : HookConn), c.closed = true → ∀ ms, deliverAll c ms = c) := by
  have hclosed : ∀ (c : HookConn), c.closed = true → ∀ ms, deliverAll c ms = c := by
    intro c hc ms
    induction ms with
    | nil => rfl
    | cons m rest ih => simp [deliverAll, deliverMsg, hc, ih]
  have hterm : (handleMessage s p).snd = true := by
    rcases h with h | h | h | h <;>
      · unfold handleMessage
        rw [h]
        simp
  refine ⟨hterm, ?_, hclosed⟩
  intro ms
  rw [hterm]
  exact hclosed _ rfl ms

/-- Witness for C8: after a concrete `certified` message the stream is
closed and later messages leave the state untouched. -/
theorem terminal_event_finality_witness :
    (handleMessage initialHookState pCert).snd = true ∧
    deliverAll (HookConn.mk (handleMessage initialHookState pCert).fst
        (handleMessage initialHookState pCert).snd) msgsAfter =
      HookConn.mk (handleMessage initialHookState pCert).fst true := by
  have h := terminal_event_finality initialHookState pCert (Or.inl rfl)
  exact ⟨h.1, h.2.1 msgsAfter⟩

/-- C9: a stream message whose data does not parse as JSON is dropped
by the catch block — the deliberation state is left entirely unchanged —
and the following messages are processed exactly as if it had never
arrived. -/
theorem invalid_json_dropped (c : HookConn) (ms : List StreamMsg) :
    deliverMsg c StreamMsg.invalid = c ∧
    deliverAll c (StreamMsg.invalid :: ms) = deliverAll c ms := by
  have h1 : deliverMsg c StreamMsg.invalid = c := by
    cases hc : c.closed <;> simp [deliverMsg, hc]
  exact ⟨h1, by simp [deliverAll, h1]⟩

/-- C10: on a connection error the hook reports status `error` with
message "Connection lost" exactly when no certification signal has been
seen; with the certified flag already set it completes quietly (status
`complete`, no error); either way the source is closed.  The certified
flag is set by a `round_end` event carrying `certified: true` and by a
`certified` event. -/
theorem connection_error_handling (c : HookConn) (s : HookState)
    (p q : ParsedEvent) :
    (c.st.certified = false →
      handleConnError c = HookConn.mk
        { c.st with status := DStatus.error,
                    error := some "Connection lost" } true) ∧
    (c.st.certified = true →
      handleConnError c = HookConn.mk
        { c.st with status := DStatus.complete, error := none } true) ∧
    (handleConnError c).closed = true ∧
    (eventTypeOf p = "round_end" → payloadCertified p = true →
      (handleMessage s p).fst.certified = true) ∧
    (eventTypeOf q = "certified" → (handleMessage s q).fst.certified = true) := by
  refine ⟨?_, ?_, rfl, ?_, ?_⟩
  · intro hc
    simp [handleConnError, hc]
  · intro hc
    simp [handleConnError, hc]
  · intro hp hcert
    unfold handleMessage
    rw [hp]
    simp [hcert]
  · intro hq
    unfold handleMessage
    rw [hq]
    simp

/-- Witness for C10: a connection error on a state that saw a
`round_end` with `certified: true` completes quietly; on the initial
state it reports "Connection lost"; both close the source. -/
theorem connection_error_handling_witness :
    (handleMessage initialHookState pRoundEndCert).fst.certified = true ∧
    handleConnError (HookConn.mk
        (handleMessage initialHookState pRoundEndCert).fst false) =
      HookConn.mk
        { (handleMessage initialHookState pRoundEndCert).fst with
            status := DStatus.complete, error := none } true ∧
    handleConnError (HookConn.mk initialHookState false) =
      HookConn.mk
        { initialHookState with
            status := DStatus.error,
            error := some "Connection lost" } true := by
  have h := connection_error_handling
    (HookConn.mk (handleMessage initialHookState pRoundEndCert).fst false)
    initialHookState pRoundEndCert pCert
  have hcert : (handleMessage initialHookState pRoundEndCert).fst.certified = true :=
    h.2.2.2.1 rfl rfl
  have h2 := connection_error_handling (HookConn.mk initialHookState false)
    initialHookState pRoundEndCert pCert
  exact ⟨hcert, h.2.1 hcert, h2.1 rfl⟩

/-- Witness for C2 at the default threshold: the empty round certifies,
a sub-threshold objection certifies, and a critical objection that no
later same-round delta addresses blocks certification. -/
theorem certification_policy_correct_witness :
    certify defaultThreshold [] = true ∧
    certify defaultThreshold [objMedium] = true ∧
    certify defaultThreshold (markAddressed [objCritical] [dSet]) = false :=
  ⟨(certification_policy_correct defaultThreshold).1,
   ((certification_policy_correct defaultThreshold).2.1 [objMedium]).mpr
     (by decide),
   by
     have h := ((certification_policy_correct defaultThreshold).2.2.2
       [objCritical] [dSet])
     by_contra hc
     simp only [Bool.not_eq_false] at hc
     have := h.mp hc objCritical (by simp)
     rcases this with h1 | h2 | h3
     · exact absurd h1 (by decide)
     · exact absurd h2 (by decide)
     · exact absurd h3 (by decide)⟩

end Consilium



